import Mathlib

/-!
Verification of the multi-stage pipeline pattern from the building-blocks
repository (src/patterns/multi-stage-pipeline/: stage-config.ts, worker.ts,
the completion poller, and the webhook handler).

The TypeScript code drives a PostgreSQL `leads` table whose per-stage columns
(`<stage>_status`, `<stage>_job_id`, `<stage>_result`, `<stage>_error`,
`<stage>_retry_count`, `<stage>_started_at`, `<stage>_completed_at`) form a
little state machine per stage.  We embed that table as a list of `Lead`
records and each SQL UPDATE as a pure function on that list, following the
SQL semantics: every RHS expression of a SET clause reads the old row, and
`RETURNING *` on an UPDATE yields the new (post-update) row contents.
External HTTP calls (job submission, status queries) are modelled as oracles
passed in as function arguments.
-/

namespace BuildingBlocks

/-- Per-stage status enum, from stage-config.ts (`StageStatus`). -/
inductive Status where
  | pending
  | queued
  | started
  | completed
  | failed
deriving DecidableEq, Repr

/-- Stage names, from stage-config.ts (`StageName`). -/
inductive StageName where
  | scrape
  | intel
  | strategy
  | subject
  | messaging
deriving DecidableEq, Repr

/-- Which external service handles a stage, from stage-config.ts. -/
inductive ServiceKind where
  | scraper
  | llm
deriving DecidableEq, Repr

/-- Static stage descriptor, from stage-config.ts (`StageConfig`). -/
structure StageConfig where
  next : Option StageName
  service : ServiceKind
  maxRetries : Nat
  stuckTimeoutMs : Int
  pollIntervalMs : Int
deriving DecidableEq, Repr

/-- The pipeline graph, from stage-config.ts (`STAGES`). -/
def STAGES : StageName → StageConfig
  | .scrape    => ⟨some .intel,     .scraper, 3, 600000, 2000⟩
  | .intel     => ⟨some .strategy,  .llm,     3, 900000, 3000⟩
  | .strategy  => ⟨some .subject,   .llm,     3, 900000, 3000⟩
  | .subject   => ⟨some .messaging, .llm,     3, 600000, 2000⟩
  | .messaging => ⟨none,            .llm,     3, 900000, 3000⟩

/-- Queue batch size, from stage-config.ts `QUEUE_CONFIG.batchSize`
(default of the QUEUE_BATCH_SIZE environment variable). -/
def batchSize : Nat := 5

-- ===========================================================================
-- Failure classification (stage-config.ts, classifyError)
-- ===========================================================================

/-- Result type of classifyError, from stage-config.ts. -/
inductive ErrorClass where
  | hard
  | retriable
  | unknown
deriving DecidableEq, Repr

/-- Lower-case a string into a character list; all the classifier patterns
carry the JavaScript `i` flag, which we model by lower-casing both sides. -/
def lcs (s : String) : List Char :=
  s.data.map Char.toLower

/-- Does the pattern `p` occur at the very front of `s`? -/
def beginsWith : List Char → List Char → Bool
  | [], _ => true
  | _ :: _, [] => false
  | p :: ps, c :: cs => p == c && beginsWith ps cs

/-- Does the literal pattern `p` occur anywhere in `s`?  This is the
semantics of an `i`-flagged regex with no metacharacters, applied via
`RegExp.test` as in stage-config.ts. -/
def hasSub (p : List Char) : List Char → Bool
  | [] => beginsWith p []
  | c :: cs => beginsWith p (c :: cs) || hasSub p cs

/-- JavaScript line terminators, which the regex `.` does not match. -/
def isLineTerm (c : Char) : Bool :=
  c == '\n' || c == '\r' || c == '\u2028' || c == '\u2029'

/-- Does `p2` occur after a (possibly empty) run of non-line-terminator
characters at the front of `s`?  This is `.*p2` anchored at the start. -/
def afterPat (p2 : List Char) : List Char → Bool
  | [] => beginsWith p2 []
  | c :: cs => beginsWith p2 (c :: cs) || (!isLineTerm c && afterPat p2 cs)

/-- Semantics of a regex of the shape `p1.*p2` (with the `i` flag handled by
the caller lower-casing): some occurrence of `p1` is followed, on the same
line, by an occurrence of `p2`.  Used for the `invalid.*url` and
`worker.*crash` patterns of stage-config.ts. -/
def dotStarPat (p1 p2 : List Char) : List Char → Bool
  | [] => beginsWith p1 [] && afterPat p2 []
  | c :: cs =>
    (beginsWith p1 (c :: cs) && afterPat p2 (List.drop p1.length (c :: cs))) ||
    dotStarPat p1 p2 cs

/-- HARD_FAILURE_PATTERNS of stage-config.ts, as a test on the lower-cased
error message. -/
def hardPat (s : List Char) : Bool :=
  hasSub (lcs "ENOTFOUND") s ||
  hasSub (lcs "ECONNREFUSED") s ||
  hasSub (lcs "404") s ||
  hasSub (lcs "403") s ||
  hasSub (lcs "401") s ||
  hasSub (lcs "no content") s ||
  dotStarPat (lcs "invalid") (lcs "url") s

/-- RETRIABLE_FAILURE_PATTERNS of stage-config.ts, as a test on the
lower-cased error message. -/
def retriablePat (s : List Char) : Bool :=
  hasSub (lcs "timeout") s ||
  hasSub (lcs "ETIMEDOUT") s ||
  hasSub (lcs "ECONNRESET") s ||
  hasSub (lcs "429") s ||
  hasSub (lcs "503") s ||
  hasSub (lcs "502") s ||
  hasSub (lcs "500") s ||
  hasSub (lcs "out of memory") s ||
  dotStarPat (lcs "worker") (lcs "crash") s

/-- classifyError from stage-config.ts: hard patterns first, then retriable
patterns, otherwise unknown. -/
def classifyError (error : String) : ErrorClass :=
  if hardPat (lcs error) then .hard
  else if retriablePat (lcs error) then .retriable
  else .unknown

-- ===========================================================================
-- The leads table
-- ===========================================================================

/-- The seven per-stage columns of the `leads` table (schema.sql /
getStageColumns in stage-config.ts).  Timestamps are integers (milliseconds);
the result payload is kept as an opaque optional string (the JSON text the
code stores). -/
structure StageState where
  status : Status
  jobId : Option String
  result : Option String
  error : Option String
  retryCount : Nat
  startedAt : Option Int
  completedAt : Option Int
deriving DecidableEq, Repr

/-- A fresh stage block: every column NULL, status `pending`,
retry_count 0 (schema.sql defaults). -/
def freshStage : StageState :=
  ⟨.pending, none, none, none, 0, none, none⟩

/-- One row of the `leads` table: id, created_at, and one block of stage
columns per stage. -/
structure Lead where
  id : String
  createdAt : Int
  scrape : StageState
  intel : StageState
  strategy : StageState
  subject : StageState
  messaging : StageState
deriving DecidableEq, Repr

/-- Read the stage columns of one stage from a row. -/
def getStage (l : Lead) : StageName → StageState
  | .scrape => l.scrape
  | .intel => l.intel
  | .strategy => l.strategy
  | .subject => l.subject
  | .messaging => l.messaging

/-- Write the stage columns of one stage into a row. -/
def setStage (l : Lead) : StageName → StageState → Lead
  | .scrape, b => { l with scrape := b }
  | .intel, b => { l with intel := b }
  | .strategy, b => { l with strategy := b }
  | .subject, b => { l with subject := b }
  | .messaging, b => { l with messaging := b }

-- ===========================================================================
-- Worker: claiming and submission (worker.ts)
-- ===========================================================================

/-- Insertion step of the `ORDER BY created_at` sort used by claimLeads. -/
def insertByCreated (l : Lead) : List Lead → List Lead
  | [] => [l]
  | x :: xs => if l.createdAt ≤ x.createdAt then l :: x :: xs else x :: insertByCreated l xs

/-- Sort rows by created_at ascending (`ORDER BY created_at`); ties are left
in an arbitrary but deterministic order, as in SQL. -/
def sortByCreated : List Lead → List Lead
  | [] => []
  | x :: xs => insertByCreated x (sortByCreated xs)

/-- Rows satisfying the claim WHERE clause: stage status is queued. -/
def queuedRows (stage : StageName) (db : List Lead) : List Lead :=
  db.filter (fun l => (getStage l stage).status == Status.queued)

/-- Ids selected by the inner claim subquery: queued rows, ordered by
created_at, first `limit` of them. -/
def selIds (stage : StageName) (limit : Nat) (db : List Lead) : List String :=
  ((sortByCreated (queuedRows stage db)).take limit).map Lead.id

/-- The SET clause of the claim UPDATE, applied to one row when its id is in
the selected set: status becomes started, started_at is stamped. -/
def claimRow (stage : StageName) (ids : List String) (now : Int) (l : Lead) : Lead :=
  if ids.contains l.id then
    setStage l stage { getStage l stage with status := .started, startedAt := some now }
  else l

/-- claimLeads from worker.ts: the UPDATE with the id-subquery, returning the
pair (rows produced by `RETURNING *`, table after the update).  Per PostgreSQL
semantics, `RETURNING *` on an UPDATE yields the new content of each modified
row, so the returned rows are the post-update rows of the selected ids. -/
def claimLeads (stage : StageName) (limit : Nat) (now : Int) (db : List Lead) :
    List Lead × List Lead :=
  let ids := selIds stage limit db
  (((sortByCreated (queuedRows stage db)).take limit).map (claimRow stage ids now),
   db.map (claimRow stage ids now))

/-- Row transform of markSubmitted from worker.ts: store the job id on the
matching row. -/
def markSubmittedRow (stage : StageName) (leadId jobId : String) (l : Lead) : Lead :=
  if l.id == leadId then
    setStage l stage { getStage l stage with jobId := some jobId }
  else l

/-- markSubmitted from worker.ts (UPDATE ... SET job_id WHERE id = leadId). -/
def markSubmitted (stage : StageName) (leadId jobId : String) (db : List Lead) : List Lead :=
  db.map (markSubmittedRow stage leadId jobId)

/-- The SET clause of handleSubmissionFailure from worker.ts, applied to one
stage block.  The hard branch fails immediately; the retriable branch reads
the old retry_count in every CASE (SQL SET semantics), increments it, clears
started_at, and requeues or terminalizes on the retry budget.  Note: this
branch does not touch job_id. -/
def subFailBlock (maxRetries : Nat) (error : String) (now : Int) (b : StageState) : StageState :=
  if classifyError error = .hard then
    { b with status := .failed, error := some error, completedAt := some now }
  else
    { b with
      status := if b.retryCount ≥ maxRetries then .failed else .queued,
      retryCount := b.retryCount + 1,
      error := some error,
      startedAt := none,
      completedAt := if b.retryCount ≥ maxRetries then some now else none }

/-- Row transform of handleSubmissionFailure (WHERE id = leadId). -/
def handleSubmissionFailureRow (stage : StageName) (leadId error : String) (now : Int)
    (l : Lead) : Lead :=
  if l.id == leadId then
    setStage l stage (subFailBlock (STAGES stage).maxRetries error now (getStage l stage))
  else l

/-- handleSubmissionFailure from worker.ts. -/
def handleSubmissionFailure (stage : StageName) (leadId error : String) (now : Int)
    (db : List Lead) : List Lead :=
  db.map (handleSubmissionFailureRow stage leadId error now)

/-- One claimed lead of processCycle: submit it to the external service
(modelled by the oracle, which returns the job id or throws an error
message) and record the outcome. -/
def submitStep (stage : StageName) (now : Int) (submitOracle : String → Except String String)
    (acc : List Lead) (l : Lead) : List Lead :=
  match submitOracle l.id with
  | .ok jobId => markSubmitted stage l.id jobId acc
  | .error e => handleSubmissionFailure stage l.id e now acc

/-- processCycle from worker.ts: claim a batch, then submit each claimed
lead and record the outcome per lead.  The cycle does not invoke any
stuck-job handling. -/
def processCycle (stage : StageName) (now : Int) (submitOracle : String → Except String String)
    (db : List Lead) : List Lead :=
  let c := claimLeads stage batchSize now db
  c.1.foldl (submitStep stage now submitOracle) c.2

-- ===========================================================================
-- Completion poller (second half of worker.ts: completion-poller)
-- ===========================================================================

/-- The SET clause of handleStuckJobs: branch on the old retry_count against
max_retries, increment it, write the fixed error text, and clear job_id and
started_at; completed_at is stamped only on the failed branch. -/
def stuckResolve (maxRetries : Nat) (now : Int) (b : StageState) : StageState :=
  { status := if b.retryCount ≥ maxRetries then .failed else .queued,
    jobId := none,
    result := b.result,
    error := some "Job stuck or timed out",
    retryCount := b.retryCount + 1,
    startedAt := none,
    completedAt := if b.retryCount ≥ maxRetries then some now else none }

/-- The WHERE clause of handleStuckJobs: status started and started_at
strictly older than the stuck threshold (a NULL started_at never compares). -/
def isStuck (threshold : Int) (b : StageState) : Bool :=
  b.status == .started &&
    (match b.startedAt with
     | some t => decide (t < threshold)
     | none => false)

/-- Row transform of handleStuckJobs from the completion poller. -/
def stuckRow (stage : StageName) (now : Int) (l : Lead) : Lead :=
  if isStuck (now - (STAGES stage).stuckTimeoutMs) (getStage l stage) then
    setStage l stage (stuckResolve (STAGES stage).maxRetries now (getStage l stage))
  else l

/-- handleStuckJobs from the completion poller: one UPDATE over all stuck
rows of the stage. -/
def handleStuckJobs (stage : StageName) (now : Int) (db : List Lead) : List Lead :=
  db.map (stuckRow stage now)

/-- Terminal-failure SET clause shared by the poller and webhook failure
handlers: status failed, error recorded, completed_at stamped. -/
def failTerminalBlock (error : String) (now : Int) (b : StageState) : StageState :=
  { b with status := .failed, error := some error, completedAt := some now }

/-- Requeue SET clause shared by the poller and webhook failure handlers:
status queued, job_id cleared, retry_count incremented, started_at cleared. -/
def failRequeueBlock (error : String) (b : StageState) : StageState :=
  { b with status := .queued, jobId := none, retryCount := b.retryCount + 1,
           error := some error, startedAt := none }

namespace Poller

/-- Row transform of the poller markCompleted: one UPDATE (WHERE id = leadId,
with no job_id condition) that marks the stage completed, stores the result,
stamps completed_at, and — when the stage has a configured next — sets the
next stage status to queued in the same statement. -/
def markCompletedRow (stage : StageName) (leadId : String) (result : Option String)
    (now : Int) (l : Lead) : Lead :=
  if l.id == leadId then
    let l1 := setStage l stage
      { getStage l stage with status := .completed, result := result, completedAt := some now }
    match (STAGES stage).next with
    | some n => setStage l1 n { getStage l1 n with status := .queued }
    | none => l1
  else l

/-- markCompleted from the completion poller. -/
def markCompleted (stage : StageName) (leadId : String) (result : Option String)
    (now : Int) (db : List Lead) : List Lead :=
  db.map (markCompletedRow stage leadId result now)

/-- Block transform of the poller handleJobFailure.  The branch condition
uses the retry count that was read when the lead was enumerated (`cur`),
while the requeue increment applies to the column value. -/
def jobFailBlock (maxRetries : Nat) (error : String) (cur : Nat) (now : Int)
    (b : StageState) : StageState :=
  if classifyError error = .hard ∨ cur ≥ maxRetries then
    failTerminalBlock error now b
  else
    failRequeueBlock error b

/-- Row transform of the poller handleJobFailure (WHERE id = leadId). -/
def handleJobFailureRow (stage : StageName) (leadId error : String) (cur : Nat) (now : Int)
    (l : Lead) : Lead :=
  if l.id == leadId then
    setStage l stage (jobFailBlock (STAGES stage).maxRetries error cur now (getStage l stage))
  else l

/-- handleJobFailure from the completion poller. -/
def handleJobFailure (stage : StageName) (leadId error : String) (cur : Nat) (now : Int)
    (db : List Lead) : List Lead :=
  db.map (handleJobFailureRow stage leadId error cur now)

end Poller

/-- The row shape produced by findStartedLeads in the completion poller:
id, job_id, started_at and retry_count as read at enumeration time. -/
structure StartedRow where
  id : String
  jobId : String
  startedAt : Option Int
  retryCount : Nat
deriving DecidableEq, Repr

/-- SQL ascending order on a nullable timestamp (NULLS LAST). -/
def leOptInt : Option Int → Option Int → Bool
  | some a, some b => decide (a ≤ b)
  | some _, none => true
  | none, some _ => false
  | none, none => true

/-- Insertion step of the `ORDER BY started_at` sort of findStartedLeads. -/
def insertByStarted (stage : StageName) (l : Lead) : List Lead → List Lead
  | [] => [l]
  | x :: xs =>
    if leOptInt (getStage l stage).startedAt (getStage x stage).startedAt then l :: x :: xs
    else x :: insertByStarted stage l xs

/-- Sort rows by the stage started_at ascending. -/
def sortByStarted (stage : StageName) : List Lead → List Lead
  | [] => []
  | x :: xs => insertByStarted stage x (sortByStarted stage xs)

/-- findStartedLeads from the completion poller: rows with stage status
started and a non-null job_id, ordered by started_at, first `limit` of them,
projected to (id, job_id, started_at, retry_count). -/
def findStartedLeads (stage : StageName) (limit : Nat) (db : List Lead) : List StartedRow :=
  ((sortByStarted stage (db.filter (fun l =>
      (getStage l stage).status == Status.started && (getStage l stage).jobId.isSome))).take
    limit).map
    (fun l => ⟨l.id, (getStage l stage).jobId.getD "", (getStage l stage).startedAt,
               (getStage l stage).retryCount⟩)

/-- Job status reported by the external service, from the poller JobStatus
type (checkJobStatus return value). -/
inductive JobStatus where
  | pending
  | processing
  | completed (result : Option String)
  | failed (error : Option String)
deriving DecidableEq, Repr

/-- JavaScript `x || dflt` on an optional string: the default replaces both
a missing value and the empty string (both falsy). -/
def jsOr (o : Option String) (dflt : String) : String :=
  match o with
  | some s => if s == "" then dflt else s
  | none => dflt

/-- One enumerated lead of pollCycle: query the service (oracle `check`,
whose Except.error case is checkJobStatus throwing), then dispatch.  A thrown
query error and a pending/processing status both leave the table untouched. -/
def pollStep (stage : StageName) (now : Int) (check : String → Except String JobStatus)
    (acc : List Lead) (r : StartedRow) : List Lead :=
  match check r.jobId with
  | .error _ => acc
  | .ok .pending => acc
  | .ok .processing => acc
  | .ok (.completed res) => Poller.markCompleted stage r.id res now acc
  | .ok (.failed e) => Poller.handleJobFailure stage r.id (jsOr e "Unknown error") r.retryCount now acc

/-- pollCycle from the completion poller: first handle stuck jobs, then
enumerate started leads (batch size times two) from the updated table and
process each one. -/
def pollCycle (stage : StageName) (now : Int) (check : String → Except String JobStatus)
    (db : List Lead) : List Lead :=
  let db1 := handleStuckJobs stage now db
  (findStartedLeads stage (batchSize * 2) db1).foldl (pollStep stage now check) db1

-- ===========================================================================
-- Webhook handler (webhook-handler.ts, src/unnamed/part_001)
-- ===========================================================================

/-- Webhook payload status field: the service reports completed or failed. -/
inductive JobOutcome where
  | completed
  | failed
deriving DecidableEq, Repr

/-- WebhookPayload from webhook-handler.ts.  The stage field is typed here,
so the handler's unknown-stage 400 branch is outside the model; result and
error stay opaque optional strings. -/
structure WebhookPayload where
  jobId : String
  stage : StageName
  leadId : String
  status : JobOutcome
  result : Option String
  error : Option String
deriving DecidableEq, Repr

/-- Responses of the /job-complete endpoint. -/
inductive WebhookResp where
  | unauthorized
  | badRequest
  | alreadyProcessed
  | processed
deriving DecidableEq, Repr

/-- HTTP status code of each response. -/
def respCode : WebhookResp → Nat
  | .unauthorized => 401
  | .badRequest => 400
  | .alreadyProcessed => 200
  | .processed => 200

/-- isAlreadyProcessed from webhook-handler.ts: look up the row with
id = leadId whose stage job_id equals the payload job id; report true when
its stage status is completed or failed, false when no such row exists. -/
def isAlreadyProcessed (stage : StageName) (leadId jobId : String) (db : List Lead) : Bool :=
  match db.find? (fun l => l.id == leadId && (getStage l stage).jobId == some jobId) with
  | none => false
  | some l =>
    (getStage l stage).status == Status.completed || (getStage l stage).status == Status.failed

namespace Webhook

/-- Row transform of the webhook markCompleted: like the poller one, but the
UPDATE is conditioned on id = leadId AND job_id = jobId. -/
def markCompletedRow (stage : StageName) (leadId jobId : String) (result : Option String)
    (now : Int) (l : Lead) : Lead :=
  if l.id == leadId && (getStage l stage).jobId == some jobId then
    let l1 := setStage l stage
      { getStage l stage with status := .completed, result := result, completedAt := some now }
    match (STAGES stage).next with
    | some n => setStage l1 n { getStage l1 n with status := .queued }
    | none => l1
  else l

/-- markCompleted from webhook-handler.ts. -/
def markCompleted (stage : StageName) (leadId jobId : String) (result : Option String)
    (now : Int) (db : List Lead) : List Lead :=
  db.map (markCompletedRow stage leadId jobId result now)

/-- The retry_count the webhook handleJobFailure reads before branching: the
stage retry_count of the row with id = leadId, or 0 when the row is missing
(the JavaScript `lead.rows[0]?.retry_count || 0`). -/
def curRetryCount (stage : StageName) (leadId : String) (db : List Lead) : Nat :=
  match db.find? (fun l => l.id == leadId) with
  | some l => (getStage l stage).retryCount
  | none => 0

/-- handleJobFailure from webhook-handler.ts: first read the current
retry_count of the row with id = leadId (0 when the row is missing), then run
the terminal or requeue UPDATE, both conditioned on id AND job_id. -/
def handleJobFailure (stage : StageName) (leadId jobId error : String) (now : Int)
    (db : List Lead) : List Lead :=
  if classifyError error = .hard ∨ curRetryCount stage leadId db ≥ (STAGES stage).maxRetries then
    db.map (fun l =>
      if l.id == leadId && (getStage l stage).jobId == some jobId then
        setStage l stage (failTerminalBlock error now (getStage l stage))
      else l)
  else
    db.map (fun l =>
      if l.id == leadId && (getStage l stage).jobId == some jobId then
        setStage l stage (failRequeueBlock error (getStage l stage))
      else l)

end Webhook

/-- The /job-complete request handler from webhook-handler.ts, restricted to
its effect on the leads table and its response.  `sigOk` is the outcome of
validateSignature on the raw body (true whenever no secret is configured).
The required-field check models the JavaScript truthiness test, where an
empty string is missing; the webhook_logs insert and its processed flag touch
only the log table and are omitted.  After the idempotency check the payload
status dispatches to markCompleted or handleJobFailure, and the endpoint
answers 200 processed. -/
def handleWebhook (sigOk : Bool) (p : WebhookPayload) (now : Int) (db : List Lead) :
    WebhookResp × List Lead :=
  if !sigOk then (.unauthorized, db)
  else if p.jobId == "" || p.leadId == "" then (.badRequest, db)
  else if isAlreadyProcessed p.stage p.leadId p.jobId db then (.alreadyProcessed, db)
  else
    match p.status with
    | .completed => (.processed, Webhook.markCompleted p.stage p.leadId p.jobId p.result now db)
    | .failed =>
      (.processed, Webhook.handleJobFailure p.stage p.leadId p.jobId (jsOr p.error "Unknown error") now db)

-- ===========================================================================
-- The operations of the pipeline, as one step type
-- ===========================================================================

/-- Every leads-table mutation of the pipeline, with its parameters:
claiming, submission bookkeeping, submission failure, stuck-job reclaim,
poller completion and failure resolution, and a webhook delivery. -/
inductive Op where
  | claim (stage : StageName) (limit : Nat) (now : Int)
  | submitted (stage : StageName) (leadId jobId : String)
  | submissionFailure (stage : StageName) (leadId error : String) (now : Int)
  | stuck (stage : StageName) (now : Int)
  | pollComplete (stage : StageName) (leadId : String) (result : Option String) (now : Int)
  | pollFailure (stage : StageName) (leadId error : String) (cur : Nat) (now : Int)
  | webhook (sigOk : Bool) (p : WebhookPayload) (now : Int)

/-- Effect of one operation on the leads table. -/
def applyOp : Op → List Lead → List Lead
  | .claim stage limit now, db => (claimLeads stage limit now db).2
  | .submitted stage leadId jobId, db => markSubmitted stage leadId jobId db
  | .submissionFailure stage leadId e now, db => handleSubmissionFailure stage leadId e now db
  | .stuck stage now, db => handleStuckJobs stage now db
  | .pollComplete stage leadId r now, db => Poller.markCompleted stage leadId r now db
  | .pollFailure stage leadId e cur now, db => Poller.handleJobFailure stage leadId e cur now db
  | .webhook sigOk p now, db => (handleWebhook sigOk p now db).2

-- ===========================================================================
-- Concrete sample rows used by counterexamples and witnesses
-- ===========================================================================

/-- A stage block waiting in the queue. -/
def queuedBlock : StageState :=
  { freshStage with status := .queued }

/-- A stage block claimed at time `t` with job `jid` and `rc` retries. -/
def startedBlock (t : Int) (jid : String) (rc : Nat) : StageState :=
  { status := .started, jobId := some jid, result := none, error := none,
    retryCount := rc, startedAt := some t, completedAt := none }

/-- A lead whose scrape stage holds block `b`; all later stages fresh. -/
def mkLead (id : String) (created : Int) (b : StageState) : Lead :=
  { id := id, createdAt := created, scrape := b, intel := freshStage,
    strategy := freshStage, subject := freshStage, messaging := freshStage }

-- ===========================================================================
-- Predicates used by the theorems
-- ===========================================================================

/-- Pointwise retry-count ordering between two rows. -/
def RcLe (l l' : Lead) : Prop :=
  ∀ st, (getStage l st).retryCount ≤ (getStage l' st).retryCount

/-- Chaining invariant for one row: whenever a stage with a configured next
stage is completed, that next stage is not still pending. -/
def ChainInvL (l : Lead) : Prop :=
  ∀ st n, (STAGES st).next = some n →
    (getStage l st).status = .completed → (getStage l n).status ≠ .pending

/-- Chaining invariant for the whole table. -/
def ChainInv (db : List Lead) : Prop :=
  ∀ l ∈ db, ChainInvL l

/-- Outcomes of a status check on which pollStep leaves the table untouched:
a thrown query error, or a still pending/processing job. -/
def noopOutcome : Except String JobStatus → Bool
  | .error _ => true
  | .ok .pending => true
  | .ok .processing => true
  | .ok (.completed _) => false
  | .ok (.failed _) => false

-- ===========================================================================
-- Basic lemmas about the embedding
-- ===========================================================================

@[simp] theorem getStage_setStage (l : Lead) (st st' : StageName) (b : StageState) :
    getStage (setStage l st b) st' = if st' = st then b else getStage l st' := by
  cases st <;> cases st' <;> simp [getStage, setStage]

@[simp] theorem setStage_id (l : Lead) (st : StageName) (b : StageState) :
    (setStage l st b).id = l.id := by
  cases st <;> simp [setStage]

@[simp] theorem setStage_createdAt (l : Lead) (st : StageName) (b : StageState) :
    (setStage l st b).createdAt = l.createdAt := by
  cases st <;> simp [setStage]

-- ===========================================================================
-- Claim C7: failure classification
-- ===========================================================================

/-- Claim C7: classifyError is a pure function mapping an error-message
string to hard, retriable or unknown; the three spec examples classify as
stated, and every input yields the same output on every call. -/
theorem classifyError_spec_cases :
    classifyError "ENOTFOUND api.example.com" = .hard ∧
    classifyError "HTTP 429 Too Many Requests" = .retriable ∧
    classifyError "some never-seen error" = .unknown ∧
    ∀ s : String, classifyError s = classifyError s :=
  ⟨by decide, by decide, by decide, fun _ => rfl⟩

-- ===========================================================================
-- Helper lemmas on the claim sort and selection
-- ===========================================================================

theorem contains_of_mem {a : String} {l : List String} (h : a ∈ l) : l.contains a = true := by
  induction l with
  | nil => cases h
  | cons x xs ih =>
    rcases List.mem_cons.mp h with rfl | h
    · simp [List.contains_cons]
    · simp only [List.contains_cons, ih h, Bool.or_true]

theorem claimRow_createdAt (stage : StageName) (ids : List String) (now : Int) (l : Lead) :
    (claimRow stage ids now l).createdAt = l.createdAt := by
  unfold claimRow; split <;> simp

theorem mem_insertByCreated {x l : Lead} {xs : List Lead} :
    x ∈ insertByCreated l xs ↔ x = l ∨ x ∈ xs := by
  induction xs with
  | nil => simp [insertByCreated]
  | cons y ys ih =>
    simp only [insertByCreated]
    split
    · simp [List.mem_cons]
    · simp only [List.mem_cons, ih]
      tauto

theorem mem_sortByCreated {x : Lead} {xs : List Lead} :
    x ∈ sortByCreated xs ↔ x ∈ xs := by
  induction xs with
  | nil => simp [sortByCreated]
  | cons y ys ih => simp [sortByCreated, mem_insertByCreated, ih]

theorem pairwise_insertByCreated {l : Lead} {xs : List Lead}
    (h : xs.Pairwise (fun a b => a.createdAt ≤ b.createdAt)) :
    (insertByCreated l xs).Pairwise (fun a b => a.createdAt ≤ b.createdAt) := by
  induction xs with
  | nil => simp [insertByCreated]
  | cons x xs ih =>
    rw [List.pairwise_cons] at h
    obtain ⟨hx, hxs⟩ := h
    simp only [insertByCreated]
    split
    · rename_i hle
      refine List.Pairwise.cons ?_ (List.pairwise_cons.mpr ⟨hx, hxs⟩)
      intro y hy
      rcases List.mem_cons.mp hy with rfl | hy
      · exact hle
      · exact le_trans hle (hx y hy)
    · rename_i hle
      refine List.Pairwise.cons ?_ (ih hxs)
      intro y hy
      rcases mem_insertByCreated.mp hy with rfl | hy
      · exact le_of_not_le hle
      · exact hx y hy

theorem pairwise_sortByCreated (xs : List Lead) :
    (sortByCreated xs).Pairwise (fun a b => a.createdAt ≤ b.createdAt) := by
  induction xs with
  | nil => exact List.Pairwise.nil
  | cons x xs ih => exact pairwise_insertByCreated ih

-- ===========================================================================
-- Claim C1: atomic claiming
-- ===========================================================================

/-- Claim C1 counterexample: on a one-row table whose scrape stage is queued,
the rows returned by claimLeads show status started — the post-transition
state — because `UPDATE ... RETURNING *` yields the new row contents; the
claim says the returned rows show the pre-transition state (queued). -/
theorem claimLeads_pre_rows_cex :
    ((claimLeads .scrape 5 100 [mkLead "L1" 0 queuedBlock]).1.map
      (fun l => (getStage l .scrape).status)) = [Status.started] ∧
    Status.started ≠ Status.queued := by
  decide

/-- Claim C1 (amended): claim(stage, limit) atomically selects up to limit
entities whose stage status is queued, ordered by creation time oldest first,
transitions them to started with started_at stamped, and the rows it returns
are the POST-transition rows (RETURNING yields the updated contents); if no
entities qualify it returns an empty set without error. -/
theorem claimLeads_spec (stage : StageName) (limit : Nat) (now : Int) (db : List Lead) :
    (claimLeads stage limit now db).1.length ≤ limit ∧
    (∀ l ∈ (claimLeads stage limit now db).1,
        (getStage l stage).status = .started ∧ (getStage l stage).startedAt = some now) ∧
    (∀ l ∈ (claimLeads stage limit now db).1, ∃ l0 ∈ db,
        (getStage l0 stage).status = .queued ∧
        claimRow stage (selIds stage limit db) now l0 = l) ∧
    List.Pairwise (fun a b : Lead => a.createdAt ≤ b.createdAt)
      (claimLeads stage limit now db).1 ∧
    (queuedRows stage db = [] →
      (claimLeads stage limit now db).1 = [] ∧ (claimLeads stage limit now db).2 = db) := by
  refine ⟨?_, ?_, ?_, ?_, ?_⟩
  · simp only [claimLeads, List.length_map]
    exact List.length_take_le _ _
  · intro l hl
    simp only [claimLeads, List.mem_map] at hl
    obtain ⟨a, ha, rfl⟩ := hl
    have hid : a.id ∈ selIds stage limit db :=
      List.mem_map_of_mem Lead.id ha
    simp [claimRow, hid]
  · intro l hl
    simp only [claimLeads, List.mem_map] at hl
    obtain ⟨a, ha, rfl⟩ := hl
    have hmem : a ∈ queuedRows stage db :=
      mem_sortByCreated.mp (List.mem_of_mem_take ha)
    rw [queuedRows, List.mem_filter] at hmem
    exact ⟨a, hmem.1, by simpa using hmem.2, rfl⟩
  · have hs := pairwise_sortByCreated (queuedRows stage db)
    have ht := hs.sublist (List.take_sublist limit _)
    simp only [claimLeads]
    exact ht.map _ (fun a b hab => by simpa [claimRow_createdAt] using hab)
  · intro h
    have h1 : sortByCreated (queuedRows stage db) = [] := by rw [h]; rfl
    have h2 : selIds stage limit db = [] := by simp [selIds, h1]
    constructor
    · show (((sortByCreated (queuedRows stage db)).take limit).map
          (claimRow stage (selIds stage limit db) now)) = []
      rw [h1]
      simp
    · show db.map (claimRow stage (selIds stage limit db) now) = db
      rw [h2]
      have hrow : claimRow stage [] now = fun l => l := by
        funext l; simp [claimRow]
      rw [hrow]
      simp

/-- Claim C1 witness: the amended claim evaluated at a concrete one-row
table. -/
theorem claimLeads_spec_witness :
    (claimLeads .scrape 5 100 [mkLead "L1" 0 queuedBlock]).1.length ≤ 5 ∧
    (∀ l ∈ (claimLeads .scrape 5 100 [mkLead "L1" 0 queuedBlock]).1,
        (getStage l .scrape).status = .started ∧ (getStage l .scrape).startedAt = some 100) ∧
    (∀ l ∈ (claimLeads .scrape 5 100 [mkLead "L1" 0 queuedBlock]).1,
        ∃ l0 ∈ [mkLead "L1" 0 queuedBlock],
        (getStage l0 .scrape).status = .queued ∧
        claimRow .scrape (selIds .scrape 5 [mkLead "L1" 0 queuedBlock]) 100 l0 = l) ∧
    List.Pairwise (fun a b : Lead => a.createdAt ≤ b.createdAt)
      (claimLeads .scrape 5 100 [mkLead "L1" 0 queuedBlock]).1 ∧
    (queuedRows .scrape [mkLead "L1" 0 queuedBlock] = [] →
      (claimLeads .scrape 5 100 [mkLead "L1" 0 queuedBlock]).1 = [] ∧
      (claimLeads .scrape 5 100 [mkLead "L1" 0 queuedBlock]).2 = [mkLead "L1" 0 queuedBlock]) :=
  claimLeads_spec .scrape 5 100 [mkLead "L1" 0 queuedBlock]

-- ===========================================================================
-- Claim C2: stuck-job reclaim boundary
-- ===========================================================================

/-- Claim C2 counterexample: a scrape-stage entity stuck with
retry_count = max_retries is transitioned to failed, but the error message
the reclaim writes is the literal text of the source, which is not the
message the claim states. -/
theorem handleStuckJobs_error_text_cex :
    ((handleStuckJobs .scrape 1000000000 [mkLead "S1" 0 (startedBlock 0 "j1" 3)]).map
      (fun l => ((getStage l .scrape).status, (getStage l .scrape).error))) =
      [(Status.failed, some "Job stuck or timed out")] ∧
    some "Job stuck or timed out" ≠ (some "stuck or timed out" : Option String) := by
  decide

/-- Claim C2 (amended): for a stage entity with status started and started_at
older than the stuck timeout, the reclaim with retry_count = max_retries − 1
requeues it with retry_count = max_retries, clearing job_id and started_at;
with retry_count = max_retries it fails it, stamping completed_at, with the
error message "Job stuck or timed out" (not "stuck or timed out"). -/
theorem handleStuckJobs_boundary (stage : StageName) (now : Int) (db : List Lead) (l : Lead)
    (h : isStuck (now - (STAGES stage).stuckTimeoutMs) (getStage l stage) = true) :
    handleStuckJobs stage now db = db.map (stuckRow stage now) ∧
    ((getStage l stage).retryCount = (STAGES stage).maxRetries - 1 →
      (getStage (stuckRow stage now l) stage).status = .queued ∧
      (getStage (stuckRow stage now l) stage).retryCount = (STAGES stage).maxRetries ∧
      (getStage (stuckRow stage now l) stage).jobId = none ∧
      (getStage (stuckRow stage now l) stage).startedAt = none) ∧
    ((getStage l stage).retryCount = (STAGES stage).maxRetries →
      (getStage (stuckRow stage now l) stage).status = .failed ∧
      (getStage (stuckRow stage now l) stage).error = some "Job stuck or timed out" ∧
      (getStage (stuckRow stage now l) stage).completedAt = some now) := by
  have hs : stuckRow stage now l =
      setStage l stage (stuckResolve (STAGES stage).maxRetries now (getStage l stage)) := by
    unfold stuckRow
    rw [if_pos h]
  refine ⟨rfl, ?_, ?_⟩
  · intro hrc
    rw [hs]
    cases stage <;> simp_all [stuckResolve, STAGES]
  · intro hrc
    rw [hs]
    cases stage <;> simp_all [stuckResolve, STAGES]

/-- Claim C2 witness: the requeue branch evaluated on a concrete stuck entity
with retry_count 2 (= max_retries − 1). -/
theorem handleStuckJobs_boundary_witness :
    (getStage (stuckRow .scrape 1000000000 (mkLead "S1" 0 (startedBlock 0 "j1" 2))) .scrape).status
        = .queued ∧
    (getStage (stuckRow .scrape 1000000000 (mkLead "S1" 0 (startedBlock 0 "j1" 2))) .scrape).retryCount
        = (STAGES .scrape).maxRetries :=
  let t := handleStuckJobs_boundary .scrape 1000000000 [mkLead "S1" 0 (startedBlock 0 "j1" 2)]
    (mkLead "S1" 0 (startedBlock 0 "j1" 2)) (by decide)
  ⟨(t.2.1 (by decide)).1, (t.2.1 (by decide)).2.1⟩

-- ===========================================================================
-- Claim C9: submission-failure policy versus stuck-reclaim policy
-- ===========================================================================

/-- Claim C9 counterexample: on a stage block carrying job id j1 and a
retriable error, the submission-failure update leaves job_id in place while
the stuck reclaim clears it (and the recorded error messages differ), so the
two state updates are not identical. -/
theorem subFail_vs_stuck_cex :
    (subFailBlock 3 "HTTP 500" 50 (startedBlock 0 "j1" 0)).jobId = some "j1" ∧
    (stuckResolve 3 50 (startedBlock 0 "j1" 0)).jobId = none ∧
    (subFailBlock 3 "HTTP 500" 50 (startedBlock 0 "j1" 0)).error = some "HTTP 500" ∧
    (stuckResolve 3 50 (startedBlock 0 "j1" 0)).error = some "Job stuck or timed out" ∧
    subFailBlock 3 "HTTP 500" 50 (startedBlock 0 "j1" 0) ≠
      stuckResolve 3 50 (startedBlock 0 "j1" 0) ∧
    classifyError "HTTP 500" = .retriable := by
  decide

/-- Claim C9 (amended): for every stage block, retry budget and
retriable/unknown error, the submission-failure update agrees with the stuck
reclaim on status, retry_count, started_at and completed_at — increment
retry_count, clear started_at, and requeue or terminalize (stamping
completed_at) according to whether retry_count before increment is below
max_retries — but it leaves job_id unchanged where the reclaim clears it,
and it records the submission error rather than the fixed stuck message. -/
theorem subFail_matches_stuck_policy (maxR : Nat) (e : String) (now : Int) (b : StageState)
    (h : classifyError e ≠ .hard) :
    (subFailBlock maxR e now b).status = (stuckResolve maxR now b).status ∧
    (subFailBlock maxR e now b).retryCount = (stuckResolve maxR now b).retryCount ∧
    (subFailBlock maxR e now b).startedAt = (stuckResolve maxR now b).startedAt ∧
    (subFailBlock maxR e now b).completedAt = (stuckResolve maxR now b).completedAt ∧
    (subFailBlock maxR e now b).jobId = b.jobId ∧
    (subFailBlock maxR e now b).error = some e := by
  unfold subFailBlock stuckResolve
  rw [if_neg h]
  simp

/-- Claim C9 witness: the field agreement evaluated on a concrete block and
the retriable error HTTP 500. -/
theorem subFail_matches_stuck_policy_witness :
    (subFailBlock 3 "HTTP 500" 50 (startedBlock 0 "j1" 1)).status =
      (stuckResolve 3 50 (startedBlock 0 "j1" 1)).status ∧
    (subFailBlock 3 "HTTP 500" 50 (startedBlock 0 "j1" 1)).retryCount =
      (stuckResolve 3 50 (startedBlock 0 "j1" 1)).retryCount ∧
    (subFailBlock 3 "HTTP 500" 50 (startedBlock 0 "j1" 1)).startedAt =
      (stuckResolve 3 50 (startedBlock 0 "j1" 1)).startedAt ∧
    (subFailBlock 3 "HTTP 500" 50 (startedBlock 0 "j1" 1)).completedAt =
      (stuckResolve 3 50 (startedBlock 0 "j1" 1)).completedAt ∧
    (subFailBlock 3 "HTTP 500" 50 (startedBlock 0 "j1" 1)).jobId =
      (startedBlock 0 "j1" 1).jobId ∧
    (subFailBlock 3 "HTTP 500" 50 (startedBlock 0 "j1" 1)).error = some "HTTP 500" :=
  subFail_matches_stuck_policy 3 "HTTP 500" 50 (startedBlock 0 "j1" 1) (by decide)

-- ===========================================================================
-- Retry-count monotonicity machinery (Claim C3)
-- ===========================================================================

theorem rcLe_refl (l : Lead) : RcLe l l :=
  fun _ => le_refl _

theorem rcLe_trans {a b c : Lead} (h1 : RcLe a b) (h2 : RcLe b c) : RcLe a c :=
  fun st => le_trans (h1 st) (h2 st)

theorem rcLe_setStage (l : Lead) (stage : StageName) (b' : StageState)
    (h : (getStage l stage).retryCount ≤ b'.retryCount) : RcLe l (setStage l stage b') := by
  intro st
  simp only [getStage_setStage]
  split
  · rename_i he
    rw [he]
    exact h
  · exact le_refl _

theorem forall₂_rcLe_map (f : Lead → Lead) (h : ∀ l, RcLe l (f l)) (db : List Lead) :
    List.Forall₂ RcLe db (db.map f) := by
  induction db with
  | nil => exact List.Forall₂.nil
  | cons x xs ih =>
    simp only [List.map_cons]
    exact List.Forall₂.cons (h x) ih

theorem forall₂_rcLe_refl (db : List Lead) : List.Forall₂ RcLe db db := by
  induction db with
  | nil => exact List.Forall₂.nil
  | cons x xs ih => exact List.Forall₂.cons (rcLe_refl x) ih

theorem subFailBlock_rc (maxR : Nat) (e : String) (now : Int) (b : StageState) :
    b.retryCount ≤ (subFailBlock maxR e now b).retryCount := by
  unfold subFailBlock
  split
  · exact le_refl _
  · exact Nat.le_succ _

theorem jobFailBlock_rc (maxR : Nat) (e : String) (cur : Nat) (now : Int) (b : StageState) :
    b.retryCount ≤ (Poller.jobFailBlock maxR e cur now b).retryCount := by
  unfold Poller.jobFailBlock failTerminalBlock failRequeueBlock
  split
  · exact le_refl _
  · exact Nat.le_succ _

theorem rcLe_claimRow (stage : StageName) (ids : List String) (now : Int) (l : Lead) :
    RcLe l (claimRow stage ids now l) := by
  unfold claimRow
  split
  · exact rcLe_setStage l stage _ (le_refl _)
  · exact rcLe_refl l

theorem rcLe_markSubmittedRow (stage : StageName) (leadId jobId : String) (l : Lead) :
    RcLe l (markSubmittedRow stage leadId jobId l) := by
  unfold markSubmittedRow
  split
  · exact rcLe_setStage l stage _ (le_refl _)
  · exact rcLe_refl l

theorem rcLe_handleSubmissionFailureRow (stage : StageName) (leadId e : String) (now : Int)
    (l : Lead) : RcLe l (handleSubmissionFailureRow stage leadId e now l) := by
  unfold handleSubmissionFailureRow
  split
  · exact rcLe_setStage l stage _ (subFailBlock_rc _ _ _ _)
  · exact rcLe_refl l

theorem rcLe_stuckRow (stage : StageName) (now : Int) (l : Lead) :
    RcLe l (stuckRow stage now l) := by
  unfold stuckRow
  split
  · exact rcLe_setStage l stage _ (Nat.le_succ _)
  · exact rcLe_refl l

theorem rcLe_pollerMarkCompletedRow (stage : StageName) (leadId : String) (r : Option String)
    (now : Int) (l : Lead) : RcLe l (Poller.markCompletedRow stage leadId r now l) := by
  unfold Poller.markCompletedRow
  split
  · cases hn : (STAGES stage).next with
    | some n =>
      simp only [hn]
      intro st
      simp only [getStage_setStage]
      split <;> split <;> simp_all
    | none =>
      simp only [hn]
      intro st
      simp only [getStage_setStage]
      split <;> simp_all
  · exact rcLe_refl l

theorem rcLe_pollerHandleJobFailureRow (stage : StageName) (leadId e : String) (cur : Nat)
    (now : Int) (l : Lead) : RcLe l (Poller.handleJobFailureRow stage leadId e cur now l) := by
  unfold Poller.handleJobFailureRow
  split
  · exact rcLe_setStage l stage _ (jobFailBlock_rc _ _ _ _ _)
  · exact rcLe_refl l

theorem rcLe_webhookMarkCompletedRow (stage : StageName) (leadId jobId : String)
    (r : Option String) (now : Int) (l : Lead) :
    RcLe l (Webhook.markCompletedRow stage leadId jobId r now l) := by
  unfold Webhook.markCompletedRow
  split
  · cases hn : (STAGES stage).next with
    | some n =>
      simp only [hn]
      intro st
      simp only [getStage_setStage]
      split <;> split <;> simp_all
    | none =>
      simp only [hn]
      intro st
      simp only [getStage_setStage]
      split <;> simp_all
  · exact rcLe_refl l

theorem forall₂_rcLe_webhookHandleJobFailure (stage : StageName) (leadId jobId e : String)
    (now : Int) (db : List Lead) :
    List.Forall₂ RcLe db (Webhook.handleJobFailure stage leadId jobId e now db) := by
  unfold Webhook.handleJobFailure
  split
  · apply forall₂_rcLe_map
    intro l
    split
    · exact rcLe_setStage l stage _ (le_refl _)
    · exact rcLe_refl l
  · apply forall₂_rcLe_map
    intro l
    split
    · exact rcLe_setStage l stage _ (Nat.le_succ _)
    · exact rcLe_refl l

-- ===========================================================================
-- Claim C3: retry-budget monotonicity and the failure condition
-- ===========================================================================

/-- Claim C3 counterexample: a submission failure with the hard error
ENOTFOUND and retry_count 0 sets status failed even though no retriable
failure with retry_count ≥ max_retries occurred, refuting the claimed
"exactly when". -/
theorem failed_exactly_when_cex :
    (getStage (handleSubmissionFailureRow .scrape "L1" "ENOTFOUND example.com" 50
        (mkLead "L1" 0 (startedBlock 10 "j1" 0))) .scrape).status = .failed ∧
    classifyError "ENOTFOUND example.com" = .hard ∧
    (getStage (mkLead "L1" 0 (startedBlock 10 "j1" 0)) .scrape).retryCount <
      (STAGES .scrape).maxRetries := by
  decide

/-- Claim C3 (amended): across every operation of the pipeline (claiming,
submission bookkeeping, submission-failure handling, stuck-job reclaim,
poll completion and failure resolution, webhook resolution) an entity's
per-stage retry_count never decreases; and on a failure event, status
becomes failed exactly when the error classifies as hard or the failure is
retriable/unknown with retry_count ≥ max_retries before the increment (for
the stuck reclaim, which never classifies as hard: exactly when
retry_count ≥ max_retries). -/
theorem retryCount_monotone_and_fail_policy :
    (∀ (op : Op) (db : List Lead), List.Forall₂ RcLe db (applyOp op db)) ∧
    (∀ (maxR : Nat) (e : String) (now : Int) (b : StageState),
      (subFailBlock maxR e now b).status = .failed ↔
        (classifyError e = .hard ∨ maxR ≤ b.retryCount)) ∧
    (∀ (maxR : Nat) (e : String) (cur : Nat) (now : Int) (b : StageState),
      (Poller.jobFailBlock maxR e cur now b).status = .failed ↔
        (classifyError e = .hard ∨ maxR ≤ cur)) ∧
    (∀ (maxR : Nat) (now : Int) (b : StageState),
      (stuckResolve maxR now b).status = .failed ↔ maxR ≤ b.retryCount) := by
  refine ⟨?_, ?_, ?_, ?_⟩
  · intro op db
    cases op with
    | claim stage limit now =>
      exact forall₂_rcLe_map _ (rcLe_claimRow stage (selIds stage limit db) now) db
    | submitted stage leadId jobId =>
      exact forall₂_rcLe_map _ (rcLe_markSubmittedRow stage leadId jobId) db
    | submissionFailure stage leadId e now =>
      exact forall₂_rcLe_map _ (rcLe_handleSubmissionFailureRow stage leadId e now) db
    | stuck stage now =>
      exact forall₂_rcLe_map _ (rcLe_stuckRow stage now) db
    | pollComplete stage leadId r now =>
      exact forall₂_rcLe_map _ (rcLe_pollerMarkCompletedRow stage leadId r now) db
    | pollFailure stage leadId e cur now =>
      exact forall₂_rcLe_map _ (rcLe_pollerHandleJobFailureRow stage leadId e cur now) db
    | webhook sigOk p now =>
      show List.Forall₂ RcLe db (handleWebhook sigOk p now db).2
      unfold handleWebhook
      split
      · exact forall₂_rcLe_refl db
      · split
        · exact forall₂_rcLe_refl db
        · split
          · exact forall₂_rcLe_refl db
          · cases p.status with
            | completed =>
              exact forall₂_rcLe_map _
                (rcLe_webhookMarkCompletedRow p.stage p.leadId p.jobId p.result now) db
            | failed =>
              exact forall₂_rcLe_webhookHandleJobFailure p.stage p.leadId p.jobId
                (jsOr p.error "Unknown error") now db
  · intro maxR e now b
    by_cases h : classifyError e = .hard
    · simp [subFailBlock, h]
    · simp only [subFailBlock, if_neg h]
      by_cases h2 : b.retryCount ≥ maxR
      · simp [h, h2]
      · simp [h, h2]
  · intro maxR e cur now b
    by_cases h : classifyError e = .hard ∨ cur ≥ maxR
    · simp only [Poller.jobFailBlock, if_pos h, failTerminalBlock]
      simpa using h
    · simp only [Poller.jobFailBlock, if_neg h, failRequeueBlock]
      simpa using h
  · intro maxR now b
    by_cases h2 : b.retryCount ≥ maxR
    · simp [stuckResolve, h2]
    · simp [stuckResolve, h2]

-- ===========================================================================
-- Chaining-invariant machinery (Claim C5)
-- ===========================================================================

theorem chainInvL_setStage_nc (l : Lead) (stage : StageName) (b' : StageState)
    (hnp : b'.status ≠ .pending) (hnc : b'.status ≠ .completed)
    (h : ChainInvL l) : ChainInvL (setStage l stage b') := by
  intro st n hn hc
  simp only [getStage_setStage] at hc ⊢
  by_cases hst : st = stage
  · rw [if_pos hst] at hc
    exact absurd hc hnc
  · rw [if_neg hst] at hc
    by_cases hns : n = stage
    · rw [if_pos hns]
      exact hnp
    · rw [if_neg hns]
      exact h st n hn hc

theorem chainInvL_setStage_same (l : Lead) (stage : StageName) (b' : StageState)
    (hs : b'.status = (getStage l stage).status)
    (h : ChainInvL l) : ChainInvL (setStage l stage b') := by
  intro st n hn hc
  simp only [getStage_setStage] at hc ⊢
  by_cases hst : st = stage
  · rw [if_pos hst, hs] at hc
    subst hst
    by_cases hns : n = st
    · subst hns
      rw [if_pos rfl, hs]
      exact h _ _ hn hc
    · rw [if_neg hns]
      exact h st n hn hc
  · rw [if_neg hst] at hc
    by_cases hns : n = stage
    · subst hns
      rw [if_pos rfl, hs]
      exact h st n hn hc
    · rw [if_neg hns]
      exact h st n hn hc

/-- The common shape of both markCompleted rows once their WHERE guard
matched: complete the stage block and, when a next stage is configured,
queue it in the same update. -/
theorem chainInvL_completeRow (l : Lead) (stage : StageName) (B1 : StageState)
    (hB1 : B1.status = .completed) (h : ChainInvL l) :
    ChainInvL (match (STAGES stage).next with
      | some n => setStage (setStage l stage B1) n
          { getStage (setStage l stage B1) n with status := .queued }
      | none => setStage l stage B1) := by
  cases hn0 : (STAGES stage).next with
  | none =>
    simp only []
    intro st n hn hc
    simp only [getStage_setStage] at hc ⊢
    by_cases hst : st = stage
    · subst hst
      rw [hn0] at hn
      cases hn
    · rw [if_neg hst] at hc
      by_cases hns : n = stage
      · rw [if_pos hns, hB1]
        simp
      · rw [if_neg hns]
        exact h st n hn hc
  | some n0 =>
    simp only []
    intro st n hn hc
    simp only [getStage_setStage] at hc ⊢
    by_cases h1 : st = n0
    · rw [if_pos h1] at hc
      exact absurd hc (by simp)
    · rw [if_neg h1] at hc
      by_cases h2 : st = stage
      · subst h2
        rw [hn0] at hn
        injection hn with hn
        rw [if_pos (hn.symm ▸ rfl : n = n0)]
        simp
      · rw [if_neg h2] at hc
        by_cases h3 : n = n0
        · rw [if_pos h3]
          simp
        · rw [if_neg h3]
          by_cases h4 : n = stage
          · rw [if_pos h4, hB1]
            simp
          · rw [if_neg h4]
            exact h st n hn hc

theorem subFailBlock_status_ne (maxR : Nat) (e : String) (now : Int) (b : StageState) :
    (subFailBlock maxR e now b).status ≠ .pending ∧
    (subFailBlock maxR e now b).status ≠ .completed := by
  unfold subFailBlock
  split
  · simp
  · constructor <;> (simp only []; split <;> simp)

theorem stuckResolve_status_ne (maxR : Nat) (now : Int) (b : StageState) :
    (stuckResolve maxR now b).status ≠ .pending ∧
    (stuckResolve maxR now b).status ≠ .completed := by
  unfold stuckResolve
  constructor <;> (simp only []; split <;> simp)

theorem jobFailBlock_status_ne (maxR : Nat) (e : String) (cur : Nat) (now : Int)
    (b : StageState) :
    (Poller.jobFailBlock maxR e cur now b).status ≠ .pending ∧
    (Poller.jobFailBlock maxR e cur now b).status ≠ .completed := by
  unfold Poller.jobFailBlock failTerminalBlock failRequeueBlock
  split <;> simp

theorem chainInvL_claimRow (stage : StageName) (ids : List String) (now : Int) (l : Lead)
    (h : ChainInvL l) : ChainInvL (claimRow stage ids now l) := by
  unfold claimRow
  split
  · exact chainInvL_setStage_nc l stage _ (by simp) (by simp) h
  · exact h

theorem chainInvL_markSubmittedRow (stage : StageName) (leadId jobId : String) (l : Lead)
    (h : ChainInvL l) : ChainInvL (markSubmittedRow stage leadId jobId l) := by
  unfold markSubmittedRow
  split
  · exact chainInvL_setStage_same l stage _ rfl h
  · exact h

theorem chainInvL_handleSubmissionFailureRow (stage : StageName) (leadId e : String)
    (now : Int) (l : Lead) (h : ChainInvL l) :
    ChainInvL (handleSubmissionFailureRow stage leadId e now l) := by
  unfold handleSubmissionFailureRow
  split
  · exact chainInvL_setStage_nc l stage _ (subFailBlock_status_ne _ _ _ _).1
      (subFailBlock_status_ne _ _ _ _).2 h
  · exact h

theorem chainInvL_stuckRow (stage : StageName) (now : Int) (l : Lead)
    (h : ChainInvL l) : ChainInvL (stuckRow stage now l) := by
  unfold stuckRow
  split
  · exact chainInvL_setStage_nc l stage _ (stuckResolve_status_ne _ _ _).1
      (stuckResolve_status_ne _ _ _).2 h
  · exact h

theorem chainInvL_pollerMarkCompletedRow (stage : StageName) (leadId : String)
    (r : Option String) (now : Int) (l : Lead) (h : ChainInvL l) :
    ChainInvL (Poller.markCompletedRow stage leadId r now l) := by
  unfold Poller.markCompletedRow
  split
  · exact chainInvL_completeRow l stage _ rfl h
  · exact h

theorem chainInvL_pollerHandleJobFailureRow (stage : StageName) (leadId e : String)
    (cur : Nat) (now : Int) (l : Lead) (h : ChainInvL l) :
    ChainInvL (Poller.handleJobFailureRow stage leadId e cur now l) := by
  unfold Poller.handleJobFailureRow
  split
  · exact chainInvL_setStage_nc l stage _ (jobFailBlock_status_ne _ _ _ _ _).1
      (jobFailBlock_status_ne _ _ _ _ _).2 h
  · exact h

theorem chainInvL_webhookMarkCompletedRow (stage : StageName) (leadId jobId : String)
    (r : Option String) (now : Int) (l : Lead) (h : ChainInvL l) :
    ChainInvL (Webhook.markCompletedRow stage leadId jobId r now l) := by
  unfold Webhook.markCompletedRow
  split
  · exact chainInvL_completeRow l stage _ rfl h
  · exact h

theorem chainInv_map (f : Lead → Lead) (hf : ∀ l, ChainInvL l → ChainInvL (f l))
    (db : List Lead) (h : ChainInv db) : ChainInv (db.map f) := by
  intro l' hl'
  rcases List.mem_map.mp hl' with ⟨l, hl, rfl⟩
  exact hf l (h l hl)

theorem chainInv_webhookHandleJobFailure (stage : StageName) (leadId jobId e : String)
    (now : Int) (db : List Lead) (h : ChainInv db) :
    ChainInv (Webhook.handleJobFailure stage leadId jobId e now db) := by
  unfold Webhook.handleJobFailure
  split
  · refine chainInv_map _ (fun l hl => ?_) db h
    split
    · exact chainInvL_setStage_nc l stage _ (by simp [failTerminalBlock])
        (by simp [failTerminalBlock]) hl
    · exact hl
  · refine chainInv_map _ (fun l hl => ?_) db h
    split
    · exact chainInvL_setStage_nc l stage _ (by simp [failRequeueBlock])
        (by simp [failRequeueBlock]) hl
    · exact hl

-- ===========================================================================
-- Claim C5: stage chaining is one logical update and an invariant
-- ===========================================================================

/-- Claim C5: completing stage K with a configured next stage sets the next
stage's status to queued in the same single row update, in both the poller
and the webhook completion paths, and across every pipeline operation the
invariant that a completed stage with a configured next never leaves that
next stage pending is preserved. -/
theorem markCompleted_chains_next (stage : StageName) (leadId jobId : String)
    (r : Option String) (now : Int) (l : Lead) (n : StageName)
    (hid : l.id = leadId) (hn : (STAGES stage).next = some n) :
    ((getStage (Poller.markCompletedRow stage leadId r now l) stage).status = .completed ∧
     (getStage (Poller.markCompletedRow stage leadId r now l) n).status = .queued) ∧
    ((getStage l stage).jobId = some jobId →
      (getStage (Webhook.markCompletedRow stage leadId jobId r now l) stage).status = .completed ∧
      (getStage (Webhook.markCompletedRow stage leadId jobId r now l) n).status = .queued) ∧
    (∀ (op : Op) (db : List Lead), ChainInv db → ChainInv (applyOp op db)) := by
  refine ⟨?_, ?_, ?_⟩
  · cases stage <;> simp_all [Poller.markCompletedRow, STAGES] <;>
      (subst hn; simp [getStage_setStage])
  · intro hjob
    cases stage <;> simp_all [Webhook.markCompletedRow, STAGES] <;>
      (subst hn; simp [getStage_setStage])
  · intro op db h
    cases op with
    | claim stage limit now =>
      exact chainInv_map _ (chainInvL_claimRow stage (selIds stage limit db) now) db h
    | submitted stage leadId jobId =>
      exact chainInv_map _ (chainInvL_markSubmittedRow stage leadId jobId) db h
    | submissionFailure stage leadId e now =>
      exact chainInv_map _ (chainInvL_handleSubmissionFailureRow stage leadId e now) db h
    | stuck stage now =>
      exact chainInv_map _ (chainInvL_stuckRow stage now) db h
    | pollComplete stage leadId r now =>
      exact chainInv_map _ (chainInvL_pollerMarkCompletedRow stage leadId r now) db h
    | pollFailure stage leadId e cur now =>
      exact chainInv_map _ (chainInvL_pollerHandleJobFailureRow stage leadId e cur now) db h
    | webhook sigOk p now =>
      show ChainInv (handleWebhook sigOk p now db).2
      unfold handleWebhook
      split
      · exact h
      · split
        · exact h
        · split
          · exact h
          · cases p.status with
            | completed =>
              exact chainInv_map _
                (chainInvL_webhookMarkCompletedRow p.stage p.leadId p.jobId p.result now) db h
            | failed =>
              exact chainInv_webhookHandleJobFailure p.stage p.leadId p.jobId
                (jsOr p.error "Unknown error") now db h

/-- Claim C5 witness: both completion paths evaluated on a concrete scrape
row, whose next stage intel becomes queued in the same update. -/
theorem markCompleted_chains_next_witness :
    ((getStage (Poller.markCompletedRow .scrape "L1" (some "res") 99
        (mkLead "L1" 0 (startedBlock 0 "j1" 0))) .scrape).status = .completed ∧
     (getStage (Poller.markCompletedRow .scrape "L1" (some "res") 99
        (mkLead "L1" 0 (startedBlock 0 "j1" 0))) .intel).status = .queued) ∧
    ((getStage (Webhook.markCompletedRow .scrape "L1" "j1" (some "res") 99
        (mkLead "L1" 0 (startedBlock 0 "j1" 0))) .scrape).status = .completed ∧
     (getStage (Webhook.markCompletedRow .scrape "L1" "j1" (some "res") 99
        (mkLead "L1" 0 (startedBlock 0 "j1" 0))) .intel).status = .queued) :=
  let t := markCompleted_chains_next .scrape "L1" "j1" (some "res") 99
    (mkLead "L1" 0 (startedBlock 0 "j1" 0)) .intel rfl rfl
  ⟨t.1, t.2.1 rfl⟩

-- ===========================================================================
-- Claim C10: webhook mutations are guarded by the stored job id
-- ===========================================================================

theorem map_fix (f : Lead → Lead) (db : List Lead) (h : ∀ l ∈ db, f l = l) :
    db.map f = db := by
  induction db with
  | nil => rfl
  | cons x xs ih =>
    simp only [List.map_cons]
    rw [h x (by simp), ih (fun l hl => h l (by simp [hl]))]

/-- Claim C10: every entity mutation of the webhook completion path is
conditioned on the stored stage job_id equaling the payload jobId: when no
current row matches the (leadId, jobId) pair — a stale webhook after a
requeue cleared job_id, or a webhook for a nonexistent lead — no lead
changes, and the endpoint still answers 200. -/
theorem webhook_unmatched_is_noop (p : WebhookPayload) (now : Int) (db : List Lead)
    (hj : p.jobId ≠ "") (hl : p.leadId ≠ "")
    (hnm : ∀ l ∈ db, ¬(l.id = p.leadId ∧ (getStage l p.stage).jobId = some p.jobId)) :
    (handleWebhook true p now db).2 = db ∧
    respCode (handleWebhook true p now db).1 = 200 := by
  have hguard : ∀ l ∈ db,
      (l.id == p.leadId && (getStage l p.stage).jobId == some p.jobId) = false := by
    intro l hl'
    cases hb : (l.id == p.leadId && (getStage l p.stage).jobId == some p.jobId) with
    | false => rfl
    | true =>
      rw [Bool.and_eq_true, beq_iff_eq, beq_iff_eq] at hb
      exact absurd hb (hnm l hl')
  have hfind :
      db.find? (fun l => l.id == p.leadId && (getStage l p.stage).jobId == some p.jobId)
        = none :=
    List.find?_eq_none.mpr (fun x hx => by rw [hguard x hx]; simp)
  have hready : isAlreadyProcessed p.stage p.leadId p.jobId db = false := by
    unfold isAlreadyProcessed
    rw [hfind]
  have hja : (p.jobId == "") = false := by
    cases hb : (p.jobId == "") with
    | false => rfl
    | true => exact absurd (by rwa [beq_iff_eq] at hb) hj
  have hla : (p.leadId == "") = false := by
    cases hb : (p.leadId == "") with
    | false => rfl
    | true => exact absurd (by rwa [beq_iff_eq] at hb) hl
  have hmain : handleWebhook true p now db =
      ((handleWebhook true p now db).1, db) := by
    unfold handleWebhook
    simp only [Bool.not_true, hja, hla, Bool.or_self, hready, Bool.false_eq_true,
      if_false]
    cases p.status with
    | completed =>
      simp only []
      unfold Webhook.markCompleted
      rw [map_fix _ db (fun l hl' => by unfold Webhook.markCompletedRow; rw [hguard l hl']; simp)]
    | failed =>
      simp only []
      unfold Webhook.handleJobFailure
      split <;> rw [map_fix _ db (fun l hl' => by rw [hguard l hl']; simp)]
  constructor
  · rw [hmain]
  · unfold handleWebhook
    simp only [Bool.not_true, hja, hla, Bool.or_self, hready, Bool.false_eq_true, if_false]
    cases p.status <;> rfl

/-- Claim C10 witness: a stale webhook for a job id that was cleared by a
requeue (the stored job_id is NULL) leaves the one-row table unchanged and
still answers 200. -/
theorem webhook_unmatched_is_noop_witness :
    (handleWebhook true ⟨"j1", .scrape, "L1", .completed, some "res", none⟩ 99
        [mkLead "L1" 0 queuedBlock]).2 = [mkLead "L1" 0 queuedBlock] ∧
    respCode (handleWebhook true ⟨"j1", .scrape, "L1", .completed, some "res", none⟩ 99
        [mkLead "L1" 0 queuedBlock]).1 = 200 :=
  webhook_unmatched_is_noop ⟨"j1", .scrape, "L1", .completed, some "res", none⟩ 99
    [mkLead "L1" 0 queuedBlock] (by decide) (by decide)
    (by decide)

-- ===========================================================================
-- Claim C4: duplicate webhook delivery
-- ===========================================================================

theorem next_ne_self {stage n : StageName} (h : (STAGES stage).next = some n) :
    stage ≠ n := by
  cases stage <;> simp_all [STAGES] <;> subst h <;> decide

/-- Claim C4: delivering the same webhook payload twice to /job-complete
(same stage/entity/job triple, matching a row whose stage is started under
that job id) mutates the entity exactly once: the first delivery resolves
the stage, and the second delivery leaves the table unchanged and returns
success (already_processed when the stage is now completed or failed, or a
no-op processed response when the first delivery requeued the stage and
cleared its job_id). -/
theorem webhook_duplicate_second_noop (p : WebhookPayload) (now now2 : Int) (l : Lead)
    (hj : p.jobId ≠ "") (hl : p.leadId ≠ "")
    (hid : l.id = p.leadId)
    (hjob : (getStage l p.stage).jobId = some p.jobId)
    (hstat : (getStage l p.stage).status = .started) :
    (handleWebhook true p now2 (handleWebhook true p now [l]).2).2 =
      (handleWebhook true p now [l]).2 ∧
    respCode (handleWebhook true p now2 (handleWebhook true p now [l]).2).1 = 200 ∧
    (∀ l' ∈ (handleWebhook true p now [l]).2, (getStage l' p.stage).status ≠ .started) := by
  have hja : (p.jobId == "") = false := by
    cases hb : (p.jobId == "") with
    | false => rfl
    | true => exact absurd (by rwa [beq_iff_eq] at hb) hj
  have hla : (p.leadId == "") = false := by
    cases hb : (p.leadId == "") with
    | false => rfl
    | true => exact absurd (by rwa [beq_iff_eq] at hb) hl
  have hpred : (l.id == p.leadId && (getStage l p.stage).jobId == some p.jobId) = true := by
    simp [hid, hjob]
  have hfind1 :
      [l].find? (fun x => x.id == p.leadId && (getStage x p.stage).jobId == some p.jobId)
        = some l := by
    simp [List.find?, hpred]
  have hap1 : isAlreadyProcessed p.stage p.leadId p.jobId [l] = false := by
    unfold isAlreadyProcessed
    rw [hfind1]
    simp [hstat]
  cases hps : p.status with
  | completed =>
    have h1 : handleWebhook true p now [l] =
        (.processed, [Webhook.markCompletedRow p.stage p.leadId p.jobId p.result now l]) := by
      unfold handleWebhook
      simp only [Bool.not_true, hja, hla, Bool.or_self, hap1, Bool.false_eq_true,
        if_false, hps]
      rfl
    have hrow : ∀ now' : Int,
        (Webhook.markCompletedRow p.stage p.leadId p.jobId p.result now' l).id = l.id ∧
        (getStage (Webhook.markCompletedRow p.stage p.leadId p.jobId p.result now' l)
            p.stage).jobId = some p.jobId ∧
        (getStage (Webhook.markCompletedRow p.stage p.leadId p.jobId p.result now' l)
            p.stage).status = .completed := by
      intro now'
      unfold Webhook.markCompletedRow
      rw [hpred]
      cases hn : (STAGES p.stage).next with
      | some n =>
        have hne := next_ne_self hn
        simp [getStage_setStage, hne, hjob]
      | none =>
        simp [getStage_setStage, hjob]
    obtain ⟨hid2, hjob2, hst2⟩ := hrow now
    have hpred2 : ((Webhook.markCompletedRow p.stage p.leadId p.jobId p.result now l).id
          == p.leadId &&
        (getStage (Webhook.markCompletedRow p.stage p.leadId p.jobId p.result now l)
            p.stage).jobId == some p.jobId) = true := by
      simp [hid2, hid, hjob2]
    have hap2 : isAlreadyProcessed p.stage p.leadId p.jobId
        [Webhook.markCompletedRow p.stage p.leadId p.jobId p.result now l] = true := by
      unfold isAlreadyProcessed
      rw [show ([Webhook.markCompletedRow p.stage p.leadId p.jobId p.result now l].find?
          (fun x => x.id == p.leadId && (getStage x p.stage).jobId == some p.jobId))
          = some (Webhook.markCompletedRow p.stage p.leadId p.jobId p.result now l) by
        simp [List.find?, hpred2]]
      simp [hst2]
    have h2 : handleWebhook true p now2
        [Webhook.markCompletedRow p.stage p.leadId p.jobId p.result now l] =
        (.alreadyProcessed,
         [Webhook.markCompletedRow p.stage p.leadId p.jobId p.result now l]) := by
      unfold handleWebhook
      simp only [Bool.not_true, hja, hla, Bool.or_self, hap2, Bool.false_eq_true,
        if_false, if_true]
    rw [h1]
    refine ⟨by rw [h2], by rw [h2]; rfl, ?_⟩
    intro l' hl'
    rcases List.mem_singleton.mp hl' with rfl
    rw [hst2]
    simp
  | failed =>
    have h1 : handleWebhook true p now [l] =
        (.processed, Webhook.handleJobFailure p.stage p.leadId p.jobId
          (jsOr p.error "Unknown error") now [l]) := by
      unfold handleWebhook
      simp only [Bool.not_true, hja, hla, Bool.or_self, hap1, Bool.false_eq_true,
        if_false, hps]
    have hcur : Webhook.curRetryCount p.stage p.leadId [l] =
        (getStage l p.stage).retryCount := by
      unfold Webhook.curRetryCount
      rw [show [l].find? (fun x => x.id == p.leadId) = some l by simp [List.find?, hid]]
    by_cases hbr : classifyError (jsOr p.error "Unknown error") = .hard ∨
        Webhook.curRetryCount p.stage p.leadId [l] ≥ (STAGES p.stage).maxRetries
    · have hx : Webhook.handleJobFailure p.stage p.leadId p.jobId
          (jsOr p.error "Unknown error") now [l] =
          [setStage l p.stage
            (failTerminalBlock (jsOr p.error "Unknown error") now (getStage l p.stage))] := by
        unfold Webhook.handleJobFailure
        rw [if_pos hbr]
        simp only [List.map_cons, List.map_nil, hpred]
        simp
      have hid2 : (setStage l p.stage
          (failTerminalBlock (jsOr p.error "Unknown error") now (getStage l p.stage))).id
          = l.id := by simp
      have hjob2 : (getStage (setStage l p.stage
          (failTerminalBlock (jsOr p.error "Unknown error") now (getStage l p.stage)))
          p.stage).jobId = some p.jobId := by
        simp [getStage_setStage, failTerminalBlock, hjob]
      have hst2 : (getStage (setStage l p.stage
          (failTerminalBlock (jsOr p.error "Unknown error") now (getStage l p.stage)))
          p.stage).status = .failed := by
        simp [getStage_setStage, failTerminalBlock]
      have hap2 : isAlreadyProcessed p.stage p.leadId p.jobId
          [setStage l p.stage
            (failTerminalBlock (jsOr p.error "Unknown error") now (getStage l p.stage))]
          = true := by
        unfold isAlreadyProcessed
        rw [show ([setStage l p.stage
            (failTerminalBlock (jsOr p.error "Unknown error") now (getStage l p.stage))].find?
            (fun x => x.id == p.leadId && (getStage x p.stage).jobId == some p.jobId))
            = some (setStage l p.stage
              (failTerminalBlock (jsOr p.error "Unknown error") now (getStage l p.stage))) by
          simp [List.find?, hid2, hid, hjob, failTerminalBlock]]
        simp [failTerminalBlock]
      have h2 : handleWebhook true p now2
          [setStage l p.stage
            (failTerminalBlock (jsOr p.error "Unknown error") now (getStage l p.stage))] =
          (.alreadyProcessed,
           [setStage l p.stage
             (failTerminalBlock (jsOr p.error "Unknown error") now (getStage l p.stage))]) := by
        unfold handleWebhook
        simp only [Bool.not_true, hja, hla, Bool.or_self, hap2, Bool.false_eq_true,
          if_false, if_true]
      rw [h1, hx]
      refine ⟨by rw [h2], by rw [h2]; rfl, ?_⟩
      intro l' hl'
      rcases List.mem_singleton.mp hl' with rfl
      rw [hst2]
      simp
    · have hx : Webhook.handleJobFailure p.stage p.leadId p.jobId
          (jsOr p.error "Unknown error") now [l] =
          [setStage l p.stage
            (failRequeueBlock (jsOr p.error "Unknown error") (getStage l p.stage))] := by
        unfold Webhook.handleJobFailure
        rw [if_neg hbr]
        simp only [List.map_cons, List.map_nil, hpred]
        simp
      have hjob2 : (getStage (setStage l p.stage
          (failRequeueBlock (jsOr p.error "Unknown error") (getStage l p.stage)))
          p.stage).jobId = none := by
        simp [getStage_setStage, failRequeueBlock]
      have hst2 : (getStage (setStage l p.stage
          (failRequeueBlock (jsOr p.error "Unknown error") (getStage l p.stage)))
          p.stage).status = .queued := by
        simp [getStage_setStage, failRequeueBlock]
      have hpred2 : ((setStage l p.stage
            (failRequeueBlock (jsOr p.error "Unknown error") (getStage l p.stage))).id
            == p.leadId &&
          (getStage (setStage l p.stage
              (failRequeueBlock (jsOr p.error "Unknown error") (getStage l p.stage)))
            p.stage).jobId == some p.jobId) = false := by
        simp [failRequeueBlock]
      have hap2 : isAlreadyProcessed p.stage p.leadId p.jobId
          [setStage l p.stage
            (failRequeueBlock (jsOr p.error "Unknown error") (getStage l p.stage))]
          = false := by
        unfold isAlreadyProcessed
        rw [show ([setStage l p.stage
            (failRequeueBlock (jsOr p.error "Unknown error") (getStage l p.stage))].find?
            (fun x => x.id == p.leadId && (getStage x p.stage).jobId == some p.jobId))
            = none by simp [List.find?, failRequeueBlock]]
      have h3 : ∀ now' : Int, Webhook.handleJobFailure p.stage p.leadId p.jobId
          (jsOr p.error "Unknown error") now'
          [setStage l p.stage
            (failRequeueBlock (jsOr p.error "Unknown error") (getStage l p.stage))] =
          [setStage l p.stage
            (failRequeueBlock (jsOr p.error "Unknown error") (getStage l p.stage))] := by
        intro now'
        unfold Webhook.handleJobFailure
        split <;> simp [getStage_setStage, failRequeueBlock]
      have h2 : handleWebhook true p now2
          [setStage l p.stage
            (failRequeueBlock (jsOr p.error "Unknown error") (getStage l p.stage))] =
          (.processed,
           [setStage l p.stage
             (failRequeueBlock (jsOr p.error "Unknown error") (getStage l p.stage))]) := by
        unfold handleWebhook
        simp only [Bool.not_true, hja, hla, Bool.or_self, hap2, Bool.false_eq_true,
          if_false, hps]
        rw [h3 now2]
      rw [h1, hx]
      refine ⟨by rw [h2], by rw [h2]; rfl, ?_⟩
      intro l' hl'
      rcases List.mem_singleton.mp hl' with rfl
      rw [hst2]
      simp

/-- Claim C4 witness: a duplicate completed-webhook on a concrete started
row — the second delivery leaves the table unchanged and answers 200. -/
theorem webhook_duplicate_second_noop_witness :
    (handleWebhook true ⟨"j1", .scrape, "L1", .completed, some "res", none⟩ 150
        (handleWebhook true ⟨"j1", .scrape, "L1", .completed, some "res", none⟩ 100
          [mkLead "L1" 0 (startedBlock 10 "j1" 0)]).2).2 =
      (handleWebhook true ⟨"j1", .scrape, "L1", .completed, some "res", none⟩ 100
        [mkLead "L1" 0 (startedBlock 10 "j1" 0)]).2 ∧
    respCode (handleWebhook true ⟨"j1", .scrape, "L1", .completed, some "res", none⟩ 150
        (handleWebhook true ⟨"j1", .scrape, "L1", .completed, some "res", none⟩ 100
          [mkLead "L1" 0 (startedBlock 10 "j1" 0)]).2).1 = 200 ∧
    (∀ l' ∈ (handleWebhook true ⟨"j1", .scrape, "L1", .completed, some "res", none⟩ 100
          [mkLead "L1" 0 (startedBlock 10 "j1" 0)]).2,
      (getStage l' .scrape).status ≠ .started) :=
  webhook_duplicate_second_noop ⟨"j1", .scrape, "L1", .completed, some "res", none⟩ 100 150
    (mkLead "L1" 0 (startedBlock 10 "j1" 0)) (by decide) (by decide) rfl rfl rfl

-- ===========================================================================
-- Frame machinery for the two cycles (Claims C6 and C8)
-- ===========================================================================

theorem stuckRow_id (stage : StageName) (now : Int) (l : Lead) :
    (stuckRow stage now l).id = l.id := by
  unfold stuckRow
  split <;> simp

theorem claimRow_id (stage : StageName) (ids : List String) (now : Int) (l : Lead) :
    (claimRow stage ids now l).id = l.id := by
  unfold claimRow
  split <;> simp

theorem markSubmittedRow_fix (stage : StageName) (leadId jobId : String) (l : Lead)
    (h : l.id ≠ leadId) : markSubmittedRow stage leadId jobId l = l := by
  simp [markSubmittedRow, h]

theorem handleSubmissionFailureRow_fix (stage : StageName) (leadId e : String) (now : Int)
    (l : Lead) (h : l.id ≠ leadId) : handleSubmissionFailureRow stage leadId e now l = l := by
  simp [handleSubmissionFailureRow, h]

theorem pollerMarkCompletedRow_fix (stage : StageName) (leadId : String) (r : Option String)
    (now : Int) (l : Lead) (h : l.id ≠ leadId) :
    Poller.markCompletedRow stage leadId r now l = l := by
  simp [Poller.markCompletedRow, h]

theorem pollerHandleJobFailureRow_fix (stage : StageName) (leadId e : String) (cur : Nat)
    (now : Int) (l : Lead) (h : l.id ≠ leadId) :
    Poller.handleJobFailureRow stage leadId e cur now l = l := by
  simp [Poller.handleJobFailureRow, h]

theorem mem_of_contains {a : String} {l : List String} (h : l.contains a = true) : a ∈ l := by
  induction l with
  | nil => exact absurd h (by simp)
  | cons x xs ih =>
    rw [List.contains_cons] at h
    rcases Bool.or_eq_true_iff.mp h with h1 | h2
    · exact (eq_of_beq h1) ▸ List.mem_cons_self _ _
    · exact List.mem_cons_of_mem _ (ih h2)

theorem mem_insertByStarted {stage : StageName} {x l : Lead} {xs : List Lead} :
    x ∈ insertByStarted stage l xs ↔ x = l ∨ x ∈ xs := by
  induction xs with
  | nil => simp [insertByStarted]
  | cons y ys ih =>
    simp only [insertByStarted]
    split
    · simp [List.mem_cons]
    · simp only [List.mem_cons, ih]
      tauto

theorem mem_sortByStarted {stage : StageName} {x : Lead} {xs : List Lead} :
    x ∈ sortByStarted stage xs ↔ x ∈ xs := by
  induction xs with
  | nil => simp [sortByStarted]
  | cons y ys ih => simp [sortByStarted, mem_insertByStarted, ih]

theorem mem_findStartedLeads {stage : StageName} {lim : Nat} {db : List Lead}
    {r : StartedRow} (h : r ∈ findStartedLeads stage lim db) :
    ∃ l ∈ db, (getStage l stage).status = .started ∧
      r = ⟨l.id, (getStage l stage).jobId.getD "", (getStage l stage).startedAt,
           (getStage l stage).retryCount⟩ := by
  unfold findStartedLeads at h
  rcases List.mem_map.mp h with ⟨l, hl, rfl⟩
  have hl' := mem_sortByStarted.mp (List.mem_of_mem_take hl)
  rw [List.mem_filter] at hl'
  refine ⟨l, hl'.1, ?_, rfl⟩
  exact eq_of_beq (Bool.and_eq_true_iff.mp hl'.2).1

theorem handleStuckJobs_ids (stage : StageName) (now : Int) (db : List Lead) :
    (handleStuckJobs stage now db).map Lead.id = db.map Lead.id := by
  unfold handleStuckJobs
  induction db with
  | nil => rfl
  | cons x xs ih => simp only [List.map_cons, ih, stuckRow_id]

theorem stuckResolve_not_started (maxR : Nat) (now : Int) (b : StageState) :
    (stuckResolve maxR now b).status ≠ .started := by
  unfold stuckResolve
  simp only []
  split <;> simp

theorem pollFold_get (stage : StageName) (now : Int)
    (check : String → Except String JobStatus) (rows : List StartedRow)
    (acc : List Lead) (i : Nat) (target : Lead)
    (hget : acc[i]? = some target)
    (hrows : ∀ r ∈ rows, r.id ≠ target.id ∨ noopOutcome (check r.jobId) = true) :
    (rows.foldl (pollStep stage now check) acc)[i]? = some target := by
  induction rows generalizing acc with
  | nil => exact hget
  | cons r rs ih =>
    simp only [List.foldl_cons]
    apply ih
    · unfold pollStep
      cases hc : check r.jobId with
      | error e => exact hget
      | ok js =>
        cases js with
        | pending => exact hget
        | processing => exact hget
        | completed res =>
          have hne : target.id ≠ r.id := by
            rcases hrows r (by simp) with h | h
            · exact fun hx => h hx.symm
            · rw [hc] at h
              exact absurd h (by simp [noopOutcome])
          show (Poller.markCompleted stage r.id res now acc)[i]? = some target
          unfold Poller.markCompleted
          rw [List.getElem?_map, hget]
          simp [pollerMarkCompletedRow_fix _ _ _ _ _ hne]
        | failed e =>
          have hne : target.id ≠ r.id := by
            rcases hrows r (by simp) with h | h
            · exact fun hx => h hx.symm
            · rw [hc] at h
              exact absurd h (by simp [noopOutcome])
          show (Poller.handleJobFailure stage r.id (jsOr e "Unknown error") r.retryCount now
              acc)[i]? = some target
          unfold Poller.handleJobFailure
          rw [List.getElem?_map, hget]
          simp [pollerHandleJobFailureRow_fix _ _ _ _ _ _ hne]
    · intro r' hr'
      exact hrows r' (by simp [hr'])

theorem submitFold_get (stage : StageName) (now : Int)
    (sub : String → Except String String) (claimed : List Lead)
    (acc : List Lead) (i : Nat) (target : Lead)
    (hget : acc[i]? = some target)
    (hcl : ∀ c ∈ claimed, c.id ≠ target.id) :
    (claimed.foldl (submitStep stage now sub) acc)[i]? = some target := by
  induction claimed generalizing acc with
  | nil => exact hget
  | cons c cs ih =>
    simp only [List.foldl_cons]
    apply ih
    · have hne : target.id ≠ c.id := fun hx => hcl c (by simp) hx.symm
      unfold submitStep
      cases sub c.id with
      | ok j =>
        show (markSubmitted stage c.id j acc)[i]? = some target
        unfold markSubmitted
        rw [List.getElem?_map, hget]
        simp [markSubmittedRow_fix _ _ _ _ hne]
      | error e =>
        show (handleSubmissionFailure stage c.id e now acc)[i]? = some target
        unfold handleSubmissionFailure
        rw [List.getElem?_map, hget]
        simp [handleSubmissionFailureRow_fix _ _ _ _ _ hne]
    · intro c' hc'
      exact hcl c' (by simp [hc'])

-- ===========================================================================
-- Claim C6: where the stuck-job reclaim runs
-- ===========================================================================

/-- Claim C6 counterexample: a worker claim cycle on a table holding a stuck
started entity A and a queued entity B issues a claim (B becomes started),
yet A is returned exactly as it was — stuck entities are not requeued before
claimLeads selects its batch, because processCycle never runs the reclaim;
the final conjunct shows the reclaim would have changed A had it run. -/
theorem processCycle_no_reclaim_cex :
    (processCycle .scrape 1000000000 (fun _ => Except.ok "j9")
        [mkLead "A" 0 (startedBlock 0 "jA" 0), mkLead "B" 1 queuedBlock]).map
      (fun l => (getStage l .scrape).status) = [Status.started, Status.started] ∧
    (processCycle .scrape 1000000000 (fun _ => Except.ok "j9")
        [mkLead "A" 0 (startedBlock 0 "jA" 0), mkLead "B" 1 queuedBlock])[0]? =
      some (mkLead "A" 0 (startedBlock 0 "jA" 0)) ∧
    isStuck (1000000000 - (STAGES .scrape).stuckTimeoutMs)
      (getStage (mkLead "A" 0 (startedBlock 0 "jA" 0)) .scrape) = true ∧
    (handleStuckJobs .scrape 1000000000
        [mkLead "A" 0 (startedBlock 0 "jA" 0), mkLead "B" 1 queuedBlock])[0]? ≠
      some (mkLead "A" 0 (startedBlock 0 "jA" 0)) := by
  decide

/-- Claim C6 (amended): the stuck-job reclaim runs at the start of every
POLL cycle — pollCycle reclaims stuck entities before findStartedLeads
enumerates jobs, and a reclaimed entity is not touched again within the same
cycle — while the worker's claim cycle (processCycle) does not run the
reclaim at all and leaves stuck entities unchanged while issuing new
claims. -/
theorem stuck_reclaim_poll_cycle_only (stage : StageName) (now : Int)
    (check : String → Except String JobStatus) (sub : String → Except String String)
    (db : List Lead) (i : Nat) (l0 : Lead)
    (hnodup : (db.map Lead.id).Nodup)
    (hget : db[i]? = some l0)
    (hstuck : isStuck (now - (STAGES stage).stuckTimeoutMs) (getStage l0 stage) = true) :
    pollCycle stage now check db =
      (findStartedLeads stage (batchSize * 2) (handleStuckJobs stage now db)).foldl
        (pollStep stage now check) (handleStuckJobs stage now db) ∧
    (pollCycle stage now check db)[i]? = some (stuckRow stage now l0) ∧
    (processCycle stage now sub db)[i]? = some l0 := by
  have hl0mem : l0 ∈ db := List.getElem?_mem hget
  refine ⟨rfl, ?_, ?_⟩
  · have hdb1 : (handleStuckJobs stage now db)[i]? = some (stuckRow stage now l0) := by
      unfold handleStuckJobs
      rw [List.getElem?_map, hget]
      rfl
    show ((findStartedLeads stage (batchSize * 2) (handleStuckJobs stage now db)).foldl
        (pollStep stage now check) (handleStuckJobs stage now db))[i]? =
      some (stuckRow stage now l0)
    apply pollFold_get _ _ _ _ _ _ _ hdb1
    intro r hr
    left
    rcases mem_findStartedLeads hr with ⟨l', hl', hst', rfl⟩
    intro hidEq
    rw [stuckRow_id] at hidEq
    have hmem0 : stuckRow stage now l0 ∈ handleStuckJobs stage now db :=
      List.getElem?_mem hdb1
    have hnd1 : ((handleStuckJobs stage now db).map Lead.id).Nodup := by
      rw [handleStuckJobs_ids]
      exact hnodup
    have heq : l' = stuckRow stage now l0 :=
      List.inj_on_of_nodup_map hnd1 hl' hmem0 (by rw [stuckRow_id]; exact hidEq)
    rw [heq] at hst'
    unfold stuckRow at hst'
    rw [if_pos hstuck] at hst'
    simp only [getStage_setStage, if_pos rfl] at hst'
    exact stuckResolve_not_started _ _ _ hst'
  · have hstat0 : (getStage l0 stage).status = .started := by
      unfold isStuck at hstuck
      exact eq_of_beq (Bool.and_eq_true_iff.mp hstuck).1
    have hcontains : (selIds stage batchSize db).contains l0.id = false := by
      cases hb : (selIds stage batchSize db).contains l0.id with
      | false => rfl
      | true =>
        exfalso
        rcases List.mem_map.mp (mem_of_contains hb) with ⟨lq, hlq, hlqid⟩
        have hlq' := mem_sortByCreated.mp (List.mem_of_mem_take hlq)
        rw [queuedRows, List.mem_filter] at hlq'
        have hq : (getStage lq stage).status = .queued := eq_of_beq hlq'.2
        have heq : lq = l0 := List.inj_on_of_nodup_map hnodup hlq'.1 hl0mem hlqid
        rw [heq, hstat0] at hq
        cases hq
    have hacc : ((claimLeads stage batchSize now db).2)[i]? = some l0 := by
      show (db.map (claimRow stage (selIds stage batchSize db) now))[i]? = some l0
      rw [List.getElem?_map, hget]
      have hfix : claimRow stage (selIds stage batchSize db) now l0 = l0 := by
        have hnm : l0.id ∉ selIds stage batchSize db := fun hm => by
          rw [contains_of_mem hm] at hcontains
          cases hcontains
        simp [claimRow, hnm]
      simp [hfix]
    show ((claimLeads stage batchSize now db).1.foldl (submitStep stage now sub)
        (claimLeads stage batchSize now db).2)[i]? = some l0
    apply submitFold_get _ _ _ _ _ _ _ hacc
    intro c hc
    rcases List.mem_map.mp hc with ⟨lq, hlq, rfl⟩
    rw [claimRow_id]
    intro hidEq
    have hlq' := mem_sortByCreated.mp (List.mem_of_mem_take hlq)
    rw [queuedRows, List.mem_filter] at hlq'
    have hq : (getStage lq stage).status = .queued := eq_of_beq hlq'.2
    have heq : lq = l0 := List.inj_on_of_nodup_map hnodup hlq'.1 hl0mem hidEq
    rw [heq, hstat0] at hq
    cases hq

/-- Claim C6 witness: the amended claim evaluated on a concrete two-row
table with a stuck entity A and a queued entity B. -/
theorem stuck_reclaim_poll_cycle_only_witness :
    pollCycle .scrape 1000000000 (fun _ => Except.error "boom")
        [mkLead "A" 0 (startedBlock 0 "jA" 0), mkLead "B" 1 queuedBlock] =
      (findStartedLeads .scrape (batchSize * 2) (handleStuckJobs .scrape 1000000000
          [mkLead "A" 0 (startedBlock 0 "jA" 0), mkLead "B" 1 queuedBlock])).foldl
        (pollStep .scrape 1000000000 (fun _ => Except.error "boom"))
        (handleStuckJobs .scrape 1000000000
          [mkLead "A" 0 (startedBlock 0 "jA" 0), mkLead "B" 1 queuedBlock]) ∧
    (pollCycle .scrape 1000000000 (fun _ => Except.error "boom")
        [mkLead "A" 0 (startedBlock 0 "jA" 0), mkLead "B" 1 queuedBlock])[0]? =
      some (stuckRow .scrape 1000000000 (mkLead "A" 0 (startedBlock 0 "jA" 0))) ∧
    (processCycle .scrape 1000000000 (fun _ => Except.ok "j9")
        [mkLead "A" 0 (startedBlock 0 "jA" 0), mkLead "B" 1 queuedBlock])[0]? =
      some (mkLead "A" 0 (startedBlock 0 "jA" 0)) :=
  stuck_reclaim_poll_cycle_only .scrape 1000000000 (fun _ => Except.error "boom")
    (fun _ => Except.ok "j9")
    [mkLead "A" 0 (startedBlock 0 "jA" 0), mkLead "B" 1 queuedBlock] 0
    (mkLead "A" 0 (startedBlock 0 "jA" 0)) (by decide) (by decide) (by decide)

-- ===========================================================================
-- Claim C8: a status-query error never mutates the entity
-- ===========================================================================

/-- Claim C8: in a poll cycle, a started, non-stuck entity whose status
query throws (the oracle returns an error rather than a job-level failure)
is left completely unchanged — its row in the post-cycle table is exactly
its row before the cycle. -/
theorem pollCycle_query_error_frame (stage : StageName) (now : Int)
    (check : String → Except String JobStatus) (db : List Lead) (i : Nat)
    (l0 : Lead) (msg : String)
    (hnodup : (db.map Lead.id).Nodup)
    (hget : db[i]? = some l0)
    (hns : isStuck (now - (STAGES stage).stuckTimeoutMs) (getStage l0 stage) = false)
    (herr : check ((getStage l0 stage).jobId.getD "") = .error msg) :
    (pollCycle stage now check db)[i]? = some l0 := by
  have hrow0 : stuckRow stage now l0 = l0 := by
    unfold stuckRow
    simp [hns]
  have hdb1 : (handleStuckJobs stage now db)[i]? = some l0 := by
    unfold handleStuckJobs
    rw [List.getElem?_map, hget]
    simp [hrow0]
  show ((findStartedLeads stage (batchSize * 2) (handleStuckJobs stage now db)).foldl
      (pollStep stage now check) (handleStuckJobs stage now db))[i]? = some l0
  apply pollFold_get _ _ _ _ _ _ _ hdb1
  intro r hr
  rcases mem_findStartedLeads hr with ⟨l', hl', hst', rfl⟩
  by_cases hideq : l'.id = l0.id
  · right
    have hmem0 : l0 ∈ handleStuckJobs stage now db := List.getElem?_mem hdb1
    have hnd1 : ((handleStuckJobs stage now db).map Lead.id).Nodup := by
      rw [handleStuckJobs_ids]
      exact hnodup
    have heq : l' = l0 := List.inj_on_of_nodup_map hnd1 hl' hmem0 hideq
    subst heq
    show noopOutcome (check ((getStage l' stage).jobId.getD "")) = true
    rw [herr]
    rfl
  · left
    exact hideq

/-- Claim C8 witness: a concrete started row whose status check throws is
untouched by the poll cycle. -/
theorem pollCycle_query_error_frame_witness :
    (pollCycle .scrape 1000 (fun _ => Except.error "boom")
        [mkLead "A" 0 (startedBlock 900 "jA" 0)])[0]? =
      some (mkLead "A" 0 (startedBlock 900 "jA" 0)) :=
  pollCycle_query_error_frame .scrape 1000 (fun _ => Except.error "boom")
    [mkLead "A" 0 (startedBlock 900 "jA" 0)] 0
    (mkLead "A" 0 (startedBlock 900 "jA" 0)) "boom" (by decide) (by decide) (by decide) rfl

end BuildingBlocks
